import Mathlib

/-
  Shallow embedding of src/main.py (shitstorm simulation).

  The external LLM (`llm.invoke`) and `json.loads` are modelled as oracles:
  each generator call site takes the call's outcome (`Except PyErr String`)
  as an explicit argument, and JSON parsing is a parameter
  `loads : String → Option Json` (Python's `json.loads`, returning `none`
  exactly when it would raise). Prompt strings feed only the external
  generator and do not influence the state transitions the claims concern.
-/

deriving instance DecidableEq for Except

namespace Shitstorm

/-- The `status` field of the state: `Literal["ongoing","resolved","catastrophe"]`. -/
inductive Status where
  | ongoing
  | resolved
  | catastrophe
deriving DecidableEq, Repr

/-- Python exceptions that can escape the nodes. -/
inductive PyErr where
  | attributeError
  | typeError
  | valueError
  | generatorFailure
deriving DecidableEq, Repr

mutual

/-- Parsed JSON documents, the result type of `json.loads`. -/
inductive Json where
  | null : Json
  | bool (b : Bool) : Json
  | num (n : Int) : Json
  | str (s : String) : Json
  | arr (xs : JsonList) : Json
  | obj (fs : JsonFields) : Json
deriving DecidableEq, Repr

inductive JsonList where
  | nil : JsonList
  | cons (hd : Json) (tl : JsonList) : JsonList
deriving DecidableEq, Repr

inductive JsonFields where
  | nil : JsonFields
  | cons (k : String) (v : Json) (tl : JsonFields) : JsonFields
deriving DecidableEq, Repr

end

/-- Key lookup in a parsed JSON object (Python `dict` access; keys from
`json.loads` are unique). -/
def JsonFields.lookup (k : String) : JsonFields → Option Json
  | .nil => none
  | .cons k' v tl => if k' = k then some v else tl.lookup k

/-- `SimState` from `main.py` (`TypedDict, total=False`); the fields that the
CLI's initial state leaves unset are `Option`-typed, the rest are always
present in every state `run_cli` produces. -/
structure SimState where
  cause : String
  company_response : Option String
  community_reactions : List String
  reputation_score : Int
  iteration : Int
  status : Status
  last_eval : Option Json
deriving DecidableEq, Repr

/-- `_clamp(n, lo, hi)` from `main.py`; the Python defaults are `lo=0, hi=100`
and every caller uses those bounds. -/
def _clamp (n lo hi : Int) : Int :=
  max lo (min hi n)

/-- `_anger_from_rep(rep)` from `main.py`. -/
def _anger_from_rep (rep : Int) : Int :=
  _clamp (100 - rep) 0 100

/-- Leading-whitespace removal on a character list (Python's whitespace set
restricted to the ASCII characters `Char.isWhitespace` covers). -/
def dropWhileSpace : List Char → List Char
  | [] => []
  | c :: cs => if c.isWhitespace then dropWhileSpace cs else c :: cs

/-- Python `str.strip()`: remove leading and trailing whitespace. -/
def pyStrip (s : String) : String :=
  ⟨((dropWhileSpace ((dropWhileSpace s.toList).reverse)).reverse)⟩

/-- Whether `sep` occurs at the head of `xs`. -/
def leadsWith : List Char → List Char → Bool
  | [], _ => true
  | _ :: _, [] => false
  | c :: cs, x :: xs => c = x && leadsWith cs xs

/-- Worker for `pySplit`: left-to-right, non-overlapping, greedy scan, cutting
whenever `sep` occurs; `fuel ≥ length of the input` keeps the zero-fuel arm
unreachable (the separator is nonempty at the one call site). -/
def splitSepAux (sep : List Char) : Nat → List Char → List Char → List (List Char)
  | _, acc, [] => [acc.reverse]
  | 0, acc, xs => [acc.reverse ++ xs]
  | Nat.succ n, acc, x :: xs =>
      if leadsWith sep (x :: xs) then
        acc.reverse :: splitSepAux sep n [] (List.drop (sep.length - 1) xs)
      else
        splitSepAux sep n (x :: acc) xs

/-- Python `str.split(sep)` for a nonempty separator. -/
def pySplit (sep s : String) : List String :=
  (splitSepAux sep.toList (s.toList.length + 1) [] s.toList).map String.mk

/-- `data.get(key, default)`: only a `dict` has `.get`; any other parsed value
raises `AttributeError` (this call sits outside the `try` block). -/
def pyGet (data : Json) (key : String) (default : Json) : Except PyErr Json :=
  match data with
  | .obj fs => .ok ((fs.lookup key).getD default)
  | _ => .error .attributeError

/-- Python `int(x)` on a JSON-decoded value: ints pass through, bools coerce
to 0/1, numeric strings parse (else `ValueError`), anything else is a
`TypeError`. -/
def pyInt (v : Json) : Except PyErr Int :=
  match v with
  | .num n => .ok n
  | .bool b => .ok (if b then 1 else 0)
  | .str s =>
      match (pyStrip s).toInt? with
      | some n => .ok n
      | none => .error .valueError
  | _ => .error .typeError

/-- Python `str(x)` on a JSON-decoded value; total. For containers the exact
repr text is immaterial downstream (any string other than the three labels
yields delta 0), so they map to fixed tags. -/
def pyStr (v : Json) : String :=
  match v with
  | .str s => s
  | .bool b => if b then "True" else "False"
  | .num n => toString n
  | .null => "None"
  | .arr _ => "list"
  | .obj _ => "dict"

/-- Python `bool(x)` truthiness on a JSON-decoded value; total. -/
def pyBool (v : Json) : Bool :=
  match v with
  | .null => false
  | .bool b => b
  | .num n => n != 0
  | .str s => s ≠ ""
  | .arr .nil => false
  | .arr (.cons _ _) => true
  | .obj .nil => false
  | .obj (.cons _ _ _) => true

/-- The fixed fallback evaluation dict from `evaluation_node` (lines 162-167),
with the source's literal strings. -/
def fallbackData : Json :=
  .obj (.cons "score" (.num 40)
    (.cons "label" (.str "mixed")
      (.cons "reasons" (.arr (.cons (.str "Konnte JSON nicht sauber parsen.") .nil))
        (.cons "suggestions"
          (.arr (.cons (.str "Klarere Entschuldigung")
            (.cons (.str "Konkrete Maßnahmen nennen") .nil)))
          (.cons "resolved" (.bool false)
            (.cons "catastrophe" (.bool false) .nil))))))

/-- The naive repair of line 158: `raw.strip().split("```")[-1]`.
`pySplit` never returns `[]`, so the `getLastD` default is unreachable. -/
def repairRaw (raw : String) : String :=
  (pySplit "```" (pyStrip raw)).getLastD ""

/-- Lines 154-167: parse the raw payload; on failure re-parse the repaired
text; on failure again substitute the fallback dict. Total in `raw`. -/
def parseData (loads : String → Option Json) (raw : String) : Json :=
  match loads raw with
  | some d => d
  | none =>
      match loads (repairRaw raw) with
      | some d => d
      | none => fallbackData

/-- Lines 169-172: extract `(score, label, resolved, catastrophe)` from the
parsed dict, with per-field defaults `50 / "mixed" / False / False`; raises
when `data` is not a dict or its score is not int-convertible. -/
def extractEval (data : Json) : Except PyErr (Int × String × Bool × Bool) := do
  let sVal ← pyGet data "score" (.num 50)
  let score ← pyInt sVal
  let lVal ← pyGet data "label" (.str "mixed")
  let rVal ← pyGet data "resolved" (.bool false)
  let cVal ← pyGet data "catastrophe" (.bool false)
  .ok (score, pyStr lVal, pyBool rVal, pyBool cVal)

/-- Line 175: the delta table `{"good": +20, "mixed": 0, "poor": -20}.get(label, 0)`. -/
def deltaFor (label : String) : Int :=
  if label = "good" then 20
  else if label = "mixed" then 0
  else if label = "poor" then -20
  else 0

/-- Lines 175-176 as the spec's `applyDelta`: add the label's delta and clamp
to [0,100]. -/
def applyDelta (score : Int) (label : String) : Int :=
  _clamp (score + deltaFor label) 0 100

/-- Lines 178-183: the termination decision as written in `evaluation_node`
(Python `elif` chain; `and` binds tighter than `or`). -/
def decideStatus (resolved catastrophe : Bool) (new_rep itr : Int) : Status :=
  if resolved ∨ new_rep ≥ 80 then .resolved
  else if catastrophe ∨ new_rep ≤ 15 ∨ (itr ≥ 6 ∧ new_rep < 60) then .catastrophe
  else .ongoing

/-- Modelled from the spec: §4.3's `decide(resolvedFlag, catastropheFlag,
newScore, iteration)`, stated from the spec's words for the refinement
claim. -/
def decideSpec (resolvedFlag catastropheFlag : Bool) (newScore iteration : Int) : Status :=
  if resolvedFlag ∨ newScore ≥ 80 then .resolved
  else if catastropheFlag ∨ newScore ≤ 15 ∨ (iteration ≥ 6 ∧ newScore < 60) then .catastrophe
  else .ongoing

/-- `community_reaction_node` (lines 53-108). `genComments` is the outcome of
the `llm.invoke(...).content` call, `resume` the outcome of the
`interrupt(...)` suspension (an error models cancellation before resume).
Either failure propagates before any update is returned; on success the node
returns the update merged into the state: one appended reaction block
(`.strip()`ped) and the resumed reply as `company_response`. -/
def community_reaction_node (genComments : Except PyErr String)
    (resume : Except PyErr String) (s : SimState) : Except PyErr SimState :=
  match genComments with
  | .error e => .error e
  | .ok content =>
      match resume with
      | .error e => .error e
      | .ok reply =>
          .ok { s with
                community_reactions := s.community_reactions ++ [pyStrip content],
                company_response := some reply }

/-- `evaluation_node` (lines 115-192). `genEval` is the outcome of the rubric
`llm.invoke(...).content` call; its failure propagates (the `try` only guards
`json.loads`). On success the raw text is parsed via `parseData`, the fields
extracted via `extractEval` (which may raise), then reputation, iteration and
status are updated and the parsed dict stored as `last_eval`. -/
def evaluation_node (loads : String → Option Json)
    (genEval : Except PyErr String) (s : SimState) : Except PyErr SimState :=
  match genEval with
  | .error e => .error e
  | .ok raw =>
      let data := parseData loads raw
      match extractEval data with
      | .error e => .error e
      | .ok (_score, label, resolved, catastrophe) =>
          let new_rep := applyDelta s.reputation_score label
          .ok { s with
                last_eval := some data,
                reputation_score := new_rep,
                iteration := s.iteration + 1,
                status := decideStatus resolved catastrophe new_rep s.iteration }

/-- One full round: reaction phase (with suspension/resume) then evaluation
phase, as wired by the graph edges `react → evaluate`. An error in either
phase aborts the round with no new state. -/
def roundStep (loads : String → Option Json) (genComments resume genEval : Except PyErr String)
    (s : SimState) : Except PyErr SimState :=
  match community_reaction_node genComments resume s with
  | .error e => .error e
  | .ok s1 => evaluation_node loads genEval s1

/-- The state the checkpoint holds after attempting a round: a fatal error
leaves the last committed state untouched. -/
def commitRound (loads : String → Option Json) (genComments resume genEval : Except PyErr String)
    (s : SimState) : SimState :=
  match roundStep loads genComments resume genEval s with
  | .error _ => s
  | .ok s' => s'

/-- The per-round oracle inputs of the driver loop. -/
structure RoundInputs where
  genComments : Except PyErr String
  resume : Except PyErr String
  genEval : Except PyErr String

/-- The driver loop of `build_app`/`run_cli`: run rounds while `status` is
`ongoing` (`continue_or_end` routes terminal states to `END`), fuel-bounded;
a fatal round error stops with the state uncommitted. -/
def simLoop (loads : String → Option Json) (ins : Nat → RoundInputs) :
    Nat → SimState → SimState
  | 0, s => s
  | Nat.succ n, s =>
      if s.status = Status.ongoing then
        match roundStep loads (ins n).genComments (ins n).resume (ins n).genEval s with
        | .error _ => s
        | .ok s' => simLoop loads ins n s'
      else s

/-- The initial state built in `run_cli` (lines 237-243). -/
def initial_state (cause : String) : SimState :=
  { cause := cause,
    company_response := none,
    community_reactions := [],
    reputation_score := 50,
    iteration := 0,
    status := .ongoing,
    last_eval := none }

/- Concrete oracle instances used by the witness theorems. Each `loads`
instance agrees with Python's `json.loads` on the strings it is applied to. -/

/-- A parser outcome where nothing parses as JSON. -/
def loadsNone : String → Option Json := fun _ => none

/-- A well-formed `good` evaluation dict, as `json.loads` would return it. -/
def dataGood : Json :=
  .obj (.cons "score" (.num 90) (.cons "label" (.str "good")
    (.cons "resolved" (.bool false) (.cons "catastrophe" (.bool false) .nil))))

/-- A parser outcome mapping the payload "gut" to `dataGood`. -/
def loadsGood : String → Option Json :=
  fun s => if s = "gut" then some dataGood else none

/-- `json.loads "3"` succeeds with the non-dict value `3`. -/
def loadsNum : String → Option Json :=
  fun s => if s = "3" then some (Json.num 3) else none

/-- The dict parsed from the fenced tail of `rawFenced`. -/
def dataNinety : Json := Json.obj (.cons "score" (Json.num 90) .nil)

/-- A payload that is not JSON as a whole but carries JSON after a ``` fence. -/
def rawFenced : String := "Hier ist die Bewertung:```\x7b\"score\":90\x7d"

/-- A parser outcome that accepts exactly the fenced tail of `rawFenced`. -/
def loadsFence : String → Option Json :=
  fun s => if s = "\x7b\"score\":90\x7d" then some dataNinety else none

/-- `json.loads "\x7b\x7d"` succeeds with the empty dict. -/
def loadsEmpty : String → Option Json :=
  fun s => if s = "\x7b\x7d" then some (Json.obj .nil) else none

/-- Round inputs whose generator calls all fail. -/
def insFail : Nat → RoundInputs :=
  fun _ => ⟨Except.error PyErr.generatorFailure, Except.error PyErr.generatorFailure,
    Except.error PyErr.generatorFailure⟩

/-- Helper: when field extraction succeeds on the parsed payload, the
evaluation node completes the round with the updated reputation, iteration
and status. -/
theorem evalNode_ok (loads : String → Option Json) (raw : String) (s : SimState)
    (sc : Int) (lbl : String) (r c : Bool)
    (h : extractEval (parseData loads raw) = Except.ok (sc, lbl, r, c)) :
    evaluation_node loads (Except.ok raw) s = Except.ok { s with
      last_eval := some (parseData loads raw),
      reputation_score := applyDelta s.reputation_score lbl,
      iteration := s.iteration + 1,
      status := decideStatus r c (applyDelta s.reputation_score lbl) s.iteration } := by
  simp only [evaluation_node, h]

/-- C1: the termination decision at the end of each round equals the spec's
`decide`: `resolved` if the resolved flag is set or the new score is ≥ 80,
else `catastrophe` if the catastrophe flag is set, the new score is ≤ 15, or
the iteration count is ≥ 6 with the new score < 60, else `ongoing`; resolved
is checked first, so both-flagged evaluations and a new score of exactly 80
with the catastrophe flag set still yield `resolved`. -/
theorem C1_termination_decision_refines_spec :
    (∀ (r c : Bool) (ns itr : Int), decideStatus r c ns itr = decideSpec r c ns itr) ∧
    (∀ (ns itr : Int), decideStatus true true ns itr = Status.resolved) ∧
    (∀ (c : Bool) (itr : Int), decideStatus false c 80 itr = Status.resolved) ∧
    (∀ (loads : String → Option Json) (raw : String) (s : SimState)
      (sc : Int) (lbl : String) (r c : Bool),
      extractEval (parseData loads raw) = Except.ok (sc, lbl, r, c) →
      evaluation_node loads (Except.ok raw) s = Except.ok { s with
        last_eval := some (parseData loads raw),
        reputation_score := applyDelta s.reputation_score lbl,
        iteration := s.iteration + 1,
        status := decideSpec r c (applyDelta s.reputation_score lbl) s.iteration }) := by
  refine ⟨fun r c ns itr => rfl, ?_, ?_, ?_⟩
  · intro ns itr
    simp [decideStatus]
  · intro c itr
    simp [decideStatus]
  · intro loads raw s sc lbl r c h
    exact evalNode_ok loads raw s sc lbl r c h

/-- Witness for C1: a concrete `good` evaluation round from the initial
state. -/
theorem C1_witness_concrete_round :
    extractEval (parseData loadsGood "gut") = Except.ok (90, "good", false, false) ∧
    evaluation_node loadsGood (Except.ok "gut") (initial_state "Produktfehler") =
      Except.ok { initial_state "Produktfehler" with
        last_eval := some (parseData loadsGood "gut"),
        reputation_score := applyDelta 50 "good",
        iteration := 0 + 1,
        status := decideSpec false false (applyDelta 50 "good") 0 } := by
  have h : extractEval (parseData loadsGood "gut") = Except.ok (90, "good", false, false) := by
    decide
  exact ⟨h, C1_termination_decision_refines_spec.2.2.2 loadsGood "gut"
    (initial_state "Produktfehler") 90 "good" false false h⟩

/-- C2: the reputation update adds +20 for "good", 0 for "mixed", -20 for
"poor" and 0 for any other label, then clamps, so the result is always in
[0,100] for every integer starting score. -/
theorem C2_applyDelta_clamp :
    (∀ score : Int, applyDelta score "good" = _clamp (score + 20) 0 100) ∧
    (∀ score : Int, applyDelta score "mixed" = _clamp (score + 0) 0 100) ∧
    (∀ score : Int, applyDelta score "poor" = _clamp (score + -20) 0 100) ∧
    (∀ (score : Int) (label : String),
      label ≠ "good" → label ≠ "mixed" → label ≠ "poor" →
      applyDelta score label = _clamp (score + 0) 0 100) ∧
    (∀ (score : Int) (label : String),
      0 ≤ applyDelta score label ∧ applyDelta score label ≤ 100) := by
  refine ⟨fun score => rfl, fun score => rfl, fun score => rfl, ?_, ?_⟩
  · intro score label h1 h2 h3
    simp [applyDelta, deltaFor, h1, h2, h3]
  · intro score label
    unfold applyDelta _clamp
    omega

/-- Witness for C2: an unknown label gets delta 0, and even a far
out-of-range start stays clamped. -/
theorem C2_witness_unknown_label :
    applyDelta 123 "seltsam" = _clamp (123 + 0) 0 100 ∧
    (0 ≤ applyDelta (-999) "poor" ∧ applyDelta (-999) "poor" ≤ 100) :=
  ⟨C2_applyDelta_clamp.2.2.2.1 123 "seltsam" (by decide) (by decide) (by decide),
   C2_applyDelta_clamp.2.2.2.2 (-999) "poor"⟩

/-- C3: whenever neither the raw payload nor its fence-repaired form parses,
the evaluation used for the round is exactly the fixed fallback dict; the
substitution is a deterministic function of the payload, consumes the single
generator outcome with no retry, and the fallback itself extracts cleanly,
so the round always completes with the fallback as `last_eval`. -/
theorem C3_fallback_on_parse_failure :
    ∀ (loads : String → Option Json) (raw : String),
      loads raw = none → loads (repairRaw raw) = none →
      parseData loads raw = fallbackData ∧
      extractEval fallbackData = Except.ok (40, "mixed", false, false) ∧
      ∀ s : SimState, ∃ s' : SimState,
        evaluation_node loads (Except.ok raw) s = Except.ok s' ∧
        s'.last_eval = some fallbackData := by
  intro loads raw h1 h2
  have hp : parseData loads raw = fallbackData := by
    simp [parseData, h1, h2]
  have he : extractEval (parseData loads raw) = Except.ok (40, "mixed", false, false) := by
    rw [hp]; decide
  refine ⟨hp, by decide, ?_⟩
  intro s
  exact ⟨_, evalNode_ok loads raw s 40 "mixed" false false he, by simp [hp]⟩

/-- Witness for C3: a payload nothing can parse yields the fallback round. -/
theorem C3_witness_unparseable_payload :
    parseData loadsNone "kein json" = fallbackData ∧
    extractEval fallbackData = Except.ok (40, "mixed", false, false) ∧
    ∃ s' : SimState,
      evaluation_node loadsNone (Except.ok "kein json") (initial_state "Anlass") = Except.ok s' ∧
      s'.last_eval = some fallbackData := by
  have h := C3_fallback_on_parse_failure loadsNone "kein json" rfl rfl
  exact ⟨h.1, h.2.1, h.2.2 (initial_state "Anlass")⟩

/-- C4 counterexample: with iteration 6 and a new score inside [60,100) the
decision need not be `ongoing`: score 90 yields `resolved` (the ≥ 80 branch
fires first), and score 60 with the catastrophe flag set yields
`catastrophe`. -/
theorem C4_counterexample_not_ongoing :
    ((6 : Int) ≥ 6 ∧ (60 : Int) ≤ 90 ∧ (90 : Int) < 100 ∧
      decideStatus false false 90 6 ≠ Status.ongoing) ∧
    ((6 : Int) ≥ 6 ∧ (60 : Int) ≤ 60 ∧ (60 : Int) < 100 ∧
      decideStatus false true 60 6 ≠ Status.ongoing) := by
  decide

/-- C4 (amended): for iteration ≥ 6, both evaluation flags false and a new
score in [60,80), the decision is `ongoing` — the iteration-plus-score
catastrophe clause uses strictly-less-than 60, not less-or-equal. -/
theorem C4_iteration_catastrophe_boundary :
    ∀ (itr ns : Int), itr ≥ 6 → 60 ≤ ns → ns < 80 →
      decideStatus false false ns itr = Status.ongoing := by
  intro itr ns h6 hlo hhi
  simp only [decideStatus, Bool.false_eq_true, false_or]
  rw [if_neg (by omega), if_neg (by omega)]

/-- Witness for C4 (amended): iteration 7, score 65 stays `ongoing`. -/
theorem C4_witness_boundary :
    decideStatus false false 65 7 = Status.ongoing :=
  C4_iteration_catastrophe_boundary 7 65 (by decide) (by decide) (by decide)

/-- C5 counterexample: the payload "3" parses as JSON (to the non-dict value
3), so the uncaught `data.get` call raises `AttributeError` and the
evaluation phase propagates the error instead of recovering. -/
theorem C5_counterexample_non_object_payload :
    evaluation_node loadsNum (Except.ok "3") (initial_state "Anlass") =
      Except.error PyErr.attributeError := by
  decide

/-- C5 (amended): for every payload that fails to parse as JSON both directly
and after the fence repair, the evaluation phase never raises: it recovers
locally with the fallback evaluation and completes the round; but that
recovery covers only parse failures — a payload parsing to a non-object JSON
value (or to an object whose score is not int-convertible) raises an
uncaught error that propagates to the caller. -/
theorem C5_parse_failure_recovered :
    ∀ (loads : String → Option Json) (raw : String) (s : SimState),
      loads raw = none → loads (repairRaw raw) = none →
      evaluation_node loads (Except.ok raw) s = Except.ok { s with
        last_eval := some fallbackData,
        reputation_score := applyDelta s.reputation_score "mixed",
        iteration := s.iteration + 1,
        status := decideStatus false false (applyDelta s.reputation_score "mixed") s.iteration } := by
  intro loads raw s h1 h2
  have hp : parseData loads raw = fallbackData := by
    simp [parseData, h1, h2]
  have he : extractEval (parseData loads raw) = Except.ok (40, "mixed", false, false) := by
    rw [hp]; decide
  rw [evalNode_ok loads raw s 40 "mixed" false false he, hp]

/-- Witness for C5 (amended): an unparseable payload completes the round via
the fallback. -/
theorem C5_witness_parse_failure :
    evaluation_node loadsNone (Except.ok "unfug") (initial_state "Anlass") =
      Except.ok { initial_state "Anlass" with
        last_eval := some fallbackData,
        reputation_score := applyDelta 50 "mixed",
        iteration := 0 + 1,
        status := decideStatus false false (applyDelta 50 "mixed") 0 } :=
  C5_parse_failure_recovered loadsNone "unfug" (initial_state "Anlass") rfl rfl

/-- C6: a failed (or cancelled) generator call in the reaction phase — and a
cancelled suspension — propagate as errors, the round aborts, and the
committed state keeps `community_reactions`, `iteration`,
`reputation_score` and `status` exactly as before the round. -/
theorem C6_reaction_failure_aborts_round :
    ∀ (loads : String → Option Json) (resume genEval : Except PyErr String)
      (s : SimState) (e : PyErr),
      roundStep loads (Except.error e) resume genEval s = Except.error e ∧
      commitRound loads (Except.error e) resume genEval s = s ∧
      (∀ content : String,
        roundStep loads (Except.ok content) (Except.error e) genEval s = Except.error e ∧
        commitRound loads (Except.ok content) (Except.error e) genEval s = s) ∧
      (commitRound loads (Except.error e) resume genEval s).community_reactions
        = s.community_reactions ∧
      (commitRound loads (Except.error e) resume genEval s).iteration = s.iteration ∧
      (commitRound loads (Except.error e) resume genEval s).reputation_score
        = s.reputation_score ∧
      (commitRound loads (Except.error e) resume genEval s).status = s.status := by
  intro loads resume genEval s e
  exact ⟨rfl, rfl, fun content => ⟨rfl, rfl⟩, rfl, rfl, rfl, rfl⟩

/-- C7: status transitions are one-way — once the state is `resolved` or
`catastrophe`, the driver loop executes no further round and the state
(hence the status) never changes again. -/
theorem C7_terminal_status_absorbing :
    ∀ (loads : String → Option Json) (ins : Nat → RoundInputs) (fuel : Nat) (s : SimState),
      s.status = Status.resolved ∨ s.status = Status.catastrophe →
      simLoop loads ins fuel s = s ∧ (simLoop loads ins fuel s).status = s.status := by
  intro loads ins fuel s h
  have hne : ¬ s.status = Status.ongoing := by
    rcases h with h | h <;> simp [h]
  have heq : simLoop loads ins fuel s = s := by
    cases fuel with
    | zero => rfl
    | succ n => simp [simLoop, hne]
  exact ⟨heq, by rw [heq]⟩

/-- Witness for C7: a resolved state is left untouched by five more loop
steps. -/
theorem C7_witness_resolved_state :
    simLoop loadsNone insFail 5 { initial_state "x" with status := Status.resolved }
      = { initial_state "x" with status := Status.resolved } ∧
    (simLoop loadsNone insFail 5 { initial_state "x" with status := Status.resolved }).status
      = ({ initial_state "x" with status := Status.resolved } : SimState).status :=
  C7_terminal_status_absorbing loadsNone insFail 5
    { initial_state "x" with status := Status.resolved } (Or.inl rfl)

/-- Helper: a completed round preserves the equality between the number of
community reactions and the iteration counter (one append in the reaction
phase, one increment in the evaluation phase). -/
theorem roundStep_len_iter {loads : String → Option Json}
    {gc rs ge : Except PyErr String} {s s' : SimState}
    (h : roundStep loads gc rs ge s = Except.ok s')
    (hinv : (s.community_reactions.length : Int) = s.iteration) :
    (s'.community_reactions.length : Int) = s'.iteration := by
  cases gc with
  | error e => simp [roundStep, community_reaction_node] at h
  | ok content =>
    cases rs with
    | error e => simp [roundStep, community_reaction_node] at h
    | ok reply =>
      cases ge with
      | error e => simp [roundStep, community_reaction_node, evaluation_node] at h
      | ok raw =>
        simp only [roundStep, community_reaction_node] at h
        cases hext : extractEval (parseData loads raw) with
        | error e => simp [evaluation_node, hext] at h
        | ok v =>
          obtain ⟨sc, lbl, r, c⟩ := v
          rw [evalNode_ok loads raw _ sc lbl r c hext] at h
          simp only [Except.ok.injEq] at h
          subst h
          simp only [List.length_append, List.length_cons, List.length_nil]
          push_cast
          omega

/-- C8: after every completed round the number of community reactions equals
the iteration counter: the initial state satisfies it with 0 = 0, each
successful round preserves it, and the driver loop maintains it from any
state satisfying it. -/
theorem C8_reactions_length_matches_iteration :
    (∀ cause : String,
      (((initial_state cause).community_reactions.length : Int)
        = (initial_state cause).iteration)) ∧
    (∀ (loads : String → Option Json) (gc rs ge : Except PyErr String) (s s' : SimState),
      roundStep loads gc rs ge s = Except.ok s' →
      (s.community_reactions.length : Int) = s.iteration →
      (s'.community_reactions.length : Int) = s'.iteration) ∧
    (∀ (loads : String → Option Json) (ins : Nat → RoundInputs) (fuel : Nat) (s : SimState),
      (s.community_reactions.length : Int) = s.iteration →
      ((simLoop loads ins fuel s).community_reactions.length : Int)
        = (simLoop loads ins fuel s).iteration) := by
  refine ⟨fun _ => rfl, fun loads gc rs ge s s' h hinv => roundStep_len_iter h hinv, ?_⟩
  intro loads ins fuel
  induction fuel with
  | zero => intro s hinv; exact hinv
  | succ n ih =>
    intro s hinv
    simp only [simLoop]
    split
    · cases hr : roundStep loads (ins n).genComments (ins n).resume (ins n).genEval s with
      | error e => exact hinv
      | ok s' => exact ih s' (roundStep_len_iter hr hinv)
    · exact hinv

/-- Witness for C8: the invariant holds after running the loop from the
initial state. -/
theorem C8_witness_loop :
    ((simLoop loadsNone insFail 2 (initial_state "y")).community_reactions.length : Int)
      = (simLoop loadsNone insFail 2 (initial_state "y")).iteration :=
  C8_reactions_length_matches_iteration.2.2 loadsNone insFail 2 (initial_state "y") rfl

/-- C9: before falling back, the evaluation phase retries the parse on the
stripped payload's substring after the last ``` fence; whenever the raw
payload does not parse but the repaired substring does, the round's
evaluation is that repaired parse result, not the fallback record. -/
theorem C9_fence_repair_used :
    ∀ (loads : String → Option Json) (raw : String) (v : Json),
      loads raw = none → loads (repairRaw raw) = some v →
      parseData loads raw = v ∧
      (v ≠ fallbackData → parseData loads raw ≠ fallbackData) := by
  intro loads raw v h1 h2
  have hp : parseData loads raw = v := by
    simp [parseData, h1, h2]
  exact ⟨hp, fun hv => hp ▸ hv⟩

/-- Witness for C9: a payload that is prose followed by a fenced JSON object
is repaired and parsed rather than replaced by the fallback. -/
theorem C9_witness_fenced_payload :
    parseData loadsFence rawFenced = dataNinety ∧
    parseData loadsFence rawFenced ≠ fallbackData := by
  have h := C9_fence_repair_used loadsFence rawFenced dataNinety (by decide) (by decide)
  exact ⟨h.1, h.2 (by decide)⟩

/-- C10: an evaluation payload that parses to a JSON object with missing
fields gets per-field defaults (score 50, label "mixed", flags false) rather
than the fallback record; the empty object yields reputation delta 0 and,
absent threshold triggers, status `ongoing`. -/
theorem C10_empty_object_defaults :
    extractEval (Json.obj .nil) = Except.ok (50, "mixed", false, false) ∧
    deltaFor "mixed" = 0 ∧
    (∀ (loads : String → Option Json) (raw : String) (s : SimState),
      loads raw = some (Json.obj .nil) →
      evaluation_node loads (Except.ok raw) s = Except.ok { s with
        last_eval := some (Json.obj .nil),
        reputation_score := applyDelta s.reputation_score "mixed",
        iteration := s.iteration + 1,
        status := decideStatus false false (applyDelta s.reputation_score "mixed") s.iteration }) ∧
    (∀ rep : Int, 0 ≤ rep → rep ≤ 100 → applyDelta rep "mixed" = rep) ∧
    (∀ (rep itr : Int), 15 < rep → rep < 80 → (itr < 6 ∨ 60 ≤ rep) →
      decideStatus false false rep itr = Status.ongoing) := by
  refine ⟨by decide, by decide, ?_, ?_, ?_⟩
  · intro loads raw s h
    have hp : parseData loads raw = Json.obj .nil := by
      simp [parseData, h]
    have he : extractEval (parseData loads raw) = Except.ok (50, "mixed", false, false) := by
      rw [hp]; decide
    rw [evalNode_ok loads raw s 50 "mixed" false false he, hp]
  · intro rep h0 h100
    have hd : deltaFor "mixed" = 0 := by decide
    unfold applyDelta
    rw [hd]
    unfold _clamp
    omega
  · intro rep itr h15 h80 hc
    simp only [decideStatus, Bool.false_eq_true, false_or]
    rw [if_neg (by omega), if_neg (by omega)]

/-- Witness for C10: the payload "\x7b\x7d" completes a round from the
initial state with delta 0 and status `ongoing`. -/
theorem C10_witness_empty_object :
    evaluation_node loadsEmpty (Except.ok "\x7b\x7d") (initial_state "Anlass") =
      Except.ok { initial_state "Anlass" with
        last_eval := some (Json.obj .nil),
        reputation_score := applyDelta 50 "mixed",
        iteration := 0 + 1,
        status := decideStatus false false (applyDelta 50 "mixed") 0 } ∧
    applyDelta 50 "mixed" = 50 ∧
    decideStatus false false 50 0 = Status.ongoing := by
  refine ⟨C10_empty_object_defaults.2.2.1 loadsEmpty "\x7b\x7d" (initial_state "Anlass") (by decide),
    C10_empty_object_defaults.2.2.2.1 50 (by decide) (by decide),
    C10_empty_object_defaults.2.2.2.2 50 0 (by decide) (by decide) (Or.inl (by decide))⟩

end Shitstorm
